import Mathlib

/-!
Shallow embedding of the rusty-chip8 CHIP-8 emulator core (src/cpu.rs).

Machine integers are modelled as `Nat` with explicit `% 2^w` where the Rust
code's fixed-width types make overflow or truncation observable.  Rust panics
(`panic!`, `unimplemented!`, slice index out of bounds) are modelled as
`Except.error` values carrying exactly the information the Rust diagnostic
carries: the unknown-opcode path prints only the opcode word, the
`unimplemented!` and bounds-check panics identify neither the instruction
word nor the program counter.
-/

namespace RustyChip8

/-- Memory size (`MEMORY_MAX` in cpu.rs). -/
def MEMORY_MAX : Nat := 4096

/-- Number of registers (`REGISTERS_MAX`). -/
def REGISTERS_MAX : Nat := 16

/-- Graphics memory buffer size (`GFX_MEMORY_MAX`). -/
def GFX_MEMORY_MAX : Nat := 64 * 32

/-- Maximum stack size (`STACK_MAX`). -/
def STACK_MAX : Nat := 16

/-- Maximum number of keys (`KEYPAD_MAX`). -/
def KEYPAD_MAX : Nat := 16

/-- Start memory address of running program (`PROGRAM_START_ADDRESS : u16`). -/
def PROGRAM_START_ADDRESS : Nat := 0x200

/-- Register index used as carry (`REGISTER_CARRY_FLAX_INDEX`). -/
def REGISTER_CARRY_FLAX_INDEX : Nat := 0xF

/-- Maximum value a register can hold (`REGISTER_VALUE_MAX : u8`). -/
def REGISTER_VALUE_MAX : Nat := 0xFF

/-- Panics the Rust code can raise during a cycle, with exactly the payload
the corresponding Rust diagnostic exposes. -/
inductive EmuError where
  /-- `println!("Unknown opcode: {:?}", self.opcode); panic!();` — the
  diagnostic shows the opcode word only, not the program counter. -/
  | unknownOpcode (opcode : Nat)
  /-- `unimplemented!()` — no diagnostic payload at all. -/
  | unimplemented
  /-- Rust slice bounds-check panic — no emulator-level diagnostic. -/
  | indexOutOfBounds
  deriving Repr, DecidableEq

/-- The `Chip8` struct of cpu.rs.  Fixed-size Rust arrays are modelled as
total functions from `Nat`; every array access in the Rust code is mirrored
with the bounds check Rust performs.  `index_register` is a `u8` field in the
source, so writes to it truncate mod 256. -/
structure Chip8 where
  /-- current opcode (`opcode: u16`) -/
  opcode : Nat
  /-- 4K memory (`memory: [u8; MEMORY_MAX]`) -/
  memory : Nat → Nat
  /-- CPU registers (`V: [u8; REGISTERS_MAX]`) -/
  V : Nat → Nat
  /-- Index register I (`index_register : u8` in the source) -/
  index_register : Nat
  /-- program counter (`pc : u16`) -/
  pc : Nat
  /-- graphics buffer (`gfx : [u8; GFX_MEMORY_MAX]`) -/
  gfx : Nat → Nat
  /-- draw flag (`draw_flag : bool`) -/
  draw_flag : Bool
  /-- delay timer register (`delay_timer : u8`) -/
  delay_timer : Nat
  /-- sound timer register (`sound_timer : u8`) -/
  sound_timer : Nat
  /-- stack (`stack : [u16; STACK_MAX]`) -/
  stack : Nat → Nat
  /-- stack pointer (`sp : u16`) -/
  sp : Nat
  /-- keypad state (`keypad : [u8; KEYPAD_MAX]`) -/
  keypad : Nat → Nat

/-- Pointwise array update. -/
def upd (f : Nat → Nat) (i v : Nat) : Nat → Nat :=
  fun j => if j = i then v else f j

/-- `Chip8::new()`. -/
def Chip8.new : Chip8 where
  opcode := 0
  memory := fun _ => 0
  V := fun _ => 0
  index_register := 0
  pc := 0x000
  gfx := fun _ => 0
  draw_flag := false
  delay_timer := 0
  sound_timer := 0
  stack := fun _ => 0
  sp := 0
  keypad := fun _ => 0

/-- Guarded read of `memory[i]`: Rust panics when the index is out of
bounds. -/
def readMem (s : Chip8) (i : Nat) : Except EmuError Nat :=
  if i < MEMORY_MAX then Except.ok (s.memory i) else Except.error .indexOutOfBounds

/-- `fetch_opcode`: big-endian fetch of two bytes at `pc`.
`(self.memory[self.pc as usize] as u16) << 8 | self.memory[(self.pc+1) as usize] as u16`. -/
def fetch_opcode (s : Chip8) : Except EmuError Nat :=
  match readMem s s.pc with
  | .error e => .error e
  | .ok hi =>
    match readMem s ((s.pc + 1) % 65536) with
    | .error e => .error e
    | .ok lo => .ok ((hi <<< 8) ||| lo)

/-- `carry_flag`: `self.V[REGISTER_CARRY_FLAX_INDEX] = flag as u8`. -/
def carry_flag (s : Chip8) (flag : Bool) : Chip8 :=
  { s with V := upd s.V REGISTER_CARRY_FLAX_INDEX (if flag then 1 else 0) }

/-- `get_op_x`: `(opcode & 0x0F00) >> 8`. -/
def get_op_x (s : Chip8) : Nat :=
  (s.opcode &&& 0x0F00) >>> 8

/-- `get_op_y`: `(opcode & 0x00F0) >> 4`. -/
def get_op_y (s : Chip8) : Nat :=
  (s.opcode &&& 0x00F0) >>> 4

/-- `get_op_nnn`: `opcode & 0x0FFF`. -/
def get_op_nnn (s : Chip8) : Nat :=
  s.opcode &&& 0x0FFF

/-- `get_op_major`: `opcode & 0xF000`. -/
def get_op_major (s : Chip8) : Nat :=
  s.opcode &&& 0xF000

/-- `get_op_lower`: `opcode & 0x000F`. -/
def get_op_lower (s : Chip8) : Nat :=
  s.opcode &&& 0x000F

/-- The decode/execute `match self.get_op_major()` block of `emulate_cycle`,
arm for arm.  The `0x0004` and `0x0033` arms are transcribed although
`get_op_major` always returns a value with its low twelve bits clear, so the
Rust `match` can never select them. -/
def execute (s : Chip8) : Except EmuError Chip8 :=
  if get_op_major s = 0xA000 then
    -- ANNN: `let operand = self.get_op_nnn() as u8;` truncates to u8
    let operand := get_op_nnn s % 256
    Except.ok { s with index_register := operand, pc := (s.pc + 2) % 65536 }
  else if get_op_major s = 0x0000 then
    if get_op_lower s = 0x0000 then
      -- 0x00E0: clear screen — `unimplemented!()`
      Except.error .unimplemented
    else if get_op_lower s = 0x000E then
      -- 0x00EE: return from subroutine — `unimplemented!()`
      Except.error .unimplemented
    else
      Except.error (.unknownOpcode s.opcode)
  else if get_op_major s = 0x2000 then
    -- 0x2NNN: `self.stack[self.sp as usize] = self.pc; self.sp += 1; self.pc = opcode & 0x0FFF;`
    if s.sp < STACK_MAX then
      Except.ok { s with
        stack := upd s.stack s.sp s.pc
        sp := s.sp + 1
        pc := s.opcode &&& 0x0FFF }
    else
      Except.error .indexOutOfBounds
  else if get_op_major s = 0x0004 then
    -- 0x8XY4 arm as written in the source (unreachable: major has form 0xN000)
    let rx := get_op_x s
    let ry := get_op_y s
    let s := if s.V ry > REGISTER_VALUE_MAX - s.V rx then carry_flag s true else carry_flag s false
    Except.ok { s with
      V := upd s.V rx ((s.V rx + s.V ry) % 256)
      pc := (s.pc + 2) % 65536 }
  else if get_op_major s = 0x0033 then
    -- 0xFX33 arm as written in the source (unreachable: major has form 0xN000)
    let i_reg := s.index_register
    let rx := (s.opcode &&& 0x0F00) >>> 8
    Except.ok { s with
      memory := upd (upd (upd s.memory i_reg (s.V rx / 100))
                      ((i_reg + 1) % 256) ((s.V rx / 10) % 10))
                  ((i_reg + 2) % 256) ((s.V rx % 100) % 10)
      pc := (s.pc + 2) % 65536 }
  else
    Except.error (.unknownOpcode s.opcode)

/-- The timer-update tail of `emulate_cycle`; the returned `Bool` records
whether `println!("BEEP!")` ran this cycle. -/
def update_timers (s : Chip8) : Chip8 × Bool :=
  let s := if 0 < s.delay_timer then { s with delay_timer := s.delay_timer - 1 } else s
  if 0 < s.sound_timer then
    ({ s with sound_timer := s.sound_timer - 1 }, decide (s.sound_timer = 1))
  else
    (s, false)

/-- `emulate_cycle`: fetch, store the opcode, decode/execute, then update the
timers.  A Rust panic anywhere surfaces as `Except.error`. -/
def emulate_cycle (s : Chip8) : Except EmuError (Chip8 × Bool) :=
  match fetch_opcode s with
  | .error e => .error e
  | .ok op =>
    match execute { s with opcode := op } with
    | .error e => .error e
    | .ok s1 => .ok (update_timers s1)

/-- `load_program`'s write loop: `memory[PROGRAM_START_ADDRESS + i] = byte`
for each byte, with Rust's bounds check on every write. -/
def write_program (mem : Nat → Nat) (addr : Nat) (buffer : List Nat) :
    Except EmuError (Nat → Nat) :=
  match buffer with
  | [] => Except.ok mem
  | b :: rest =>
    if addr < MEMORY_MAX then
      write_program (upd mem addr b) (addr + 1) rest
    else
      Except.error .indexOutOfBounds

/-- `load_program`, with the already-read file contents passed as a byte
list (the `fs::read` itself is host I/O). -/
def load_program (s : Chip8) (buffer : List Nat) : Except EmuError Chip8 := do
  let mem ← write_program s.memory PROGRAM_START_ADDRESS buffer
  Except.ok { s with memory := mem }

/-- The `fn initialize` of cpu.rs: resets `pc`, `opcode`, `index_register`,
`sp`, then hits `unimplemented!()` at the "Clear display" step before
anything else runs. -/
def initChip (s : Chip8) : Except EmuError Chip8 :=
  let _s := { s with
    pc := PROGRAM_START_ADDRESS
    opcode := 0
    index_register := 0
    sp := 0 }
  Except.error .unimplemented

/-- `boot`: `setup_gfx` and `setup_input` are empty; then `initialize` (here
`initChip`) and `load_program`. -/
def boot (s : Chip8) (buffer : List Nat) : Except EmuError Chip8 := do
  let s ← initChip s
  load_program s buffer

/-! Observation helpers: project the result of a cycle to a single decidable
value, so concrete runs can be checked by evaluation. -/

/-- The error a cycle ends in, if any. -/
def cycleErr (s : Chip8) : Option EmuError :=
  match emulate_cycle s with
  | .ok _ => none
  | .error e => some e

/-- Program counter after a successful cycle. -/
def cyclePc (s : Chip8) : Option Nat :=
  match emulate_cycle s with
  | .ok p => some p.1.pc
  | .error _ => none

/-- Index register after a successful cycle. -/
def cycleIndex (s : Chip8) : Option Nat :=
  match emulate_cycle s with
  | .ok p => some p.1.index_register
  | .error _ => none

/-- Stack entry `i` after a successful cycle. -/
def cycleStack (s : Chip8) (i : Nat) : Option Nat :=
  match emulate_cycle s with
  | .ok p => some (p.1.stack i)
  | .error _ => none

/-- Stack pointer after a successful cycle. -/
def cycleSp (s : Chip8) : Option Nat :=
  match emulate_cycle s with
  | .ok p => some p.1.sp
  | .error _ => none

/-- Two consecutive cycles. -/
def twoCycles (s : Chip8) : Except EmuError (Chip8 × Bool) := do
  let p ← emulate_cycle s
  emulate_cycle p.1

/-- The error two consecutive cycles end in, if any. -/
def twoCyclesErr (s : Chip8) : Option EmuError :=
  match twoCycles s with
  | .ok _ => none
  | .error e => some e

/-- Program counter after two successful cycles. -/
def twoCyclesPc (s : Chip8) : Option Nat :=
  match twoCycles s with
  | .ok p => some p.1.pc
  | .error _ => none

/-- Finite-support memory image: bytes from an association list, zero
elsewhere. -/
def memOf (l : List (Nat × Nat)) : Nat → Nat := fun a =>
  match l.find? (fun p => p.1 == a) with
  | some p => p.2
  | none => 0

end RustyChip8

namespace RustyChip8

/-! Concrete machine states used to exercise the emulator: each is a
properly initialized machine (`pc = 0x200`, stack and registers cleared)
with a small ROM image in memory. -/

/-- Machine about to execute the add instruction `0x8124` (V1 := V1 + V2),
with V1 = 7 and V2 = 8. -/
def st8xy4 : Chip8 :=
  { Chip8.new with
    pc := 0x200
    memory := memOf [(0x200, 0x81), (0x201, 0x24)]
    V := upd (upd Chip8.new.V 1 7) 2 8 }

/-- Machine about to execute the all-ones instruction word `0xFFFF`. -/
def stFFFF : Chip8 :=
  { Chip8.new with
    pc := 0x200
    memory := memOf [(0x200, 0xFF), (0x201, 0xFF)] }

/-- Machine about to execute `0xA123` (ANNN with nnn = 0x123). -/
def stAnnn : Chip8 :=
  { Chip8.new with
    pc := 0x200
    memory := memOf [(0x200, 0xA1), (0x201, 0x23)] }

/-- Machine about to execute call `0x2206` with `0x00EE` (return) placed at
the call target 0x206. -/
def stCallRet : Chip8 :=
  { Chip8.new with
    pc := 0x200
    memory := memOf [(0x200, 0x22), (0x201, 0x06), (0x206, 0x00), (0x207, 0xEE)] }

/-- Machine whose stack already holds 16 return addresses (`sp = 16`),
about to execute the call `0x2300`. -/
def stFullStack : Chip8 :=
  { Chip8.new with
    pc := 0x200
    sp := 16
    memory := memOf [(0x200, 0x23), (0x201, 0x00)] }

/-- Machine with an empty stack about to execute the return `0x00EE`. -/
def stEmptyRet : Chip8 :=
  { Chip8.new with
    pc := 0x200
    memory := memOf [(0x200, 0x00), (0x201, 0xEE)] }

/-- Machine about to execute the BCD instruction `0xF233` with V2 = 234 and
index register 0x50. -/
def stFx33 : Chip8 :=
  { Chip8.new with
    pc := 0x200
    index_register := 0x50
    V := upd Chip8.new.V 2 234
    memory := memOf [(0x200, 0xF2), (0x201, 0x33)] }

/-- Machine whose ROM calls `0x2FFE` and has `0xA123` at address 0xFFE, the
last two bytes of memory. -/
def stPcOverrun : Chip8 :=
  { Chip8.new with
    pc := 0x200
    memory := memOf [(0x200, 0x2F), (0x201, 0xFE), (0xFFE, 0xA1), (0xFFF, 0x23)] }

/-- Machine about to execute `0xA123` with both timers armed:
delay timer 5, sound timer 1. -/
def stTimers : Chip8 :=
  { Chip8.new with
    pc := 0x200
    delay_timer := 5
    sound_timer := 1
    memory := memOf [(0x200, 0xA1), (0x201, 0x23)] }

/-- The state `stTimers` reaches after one cycle: opcode latched, index
register set, `pc` advanced, both timers decremented. -/
def stTimersAfter : Chip8 :=
  { stTimers with
    opcode := 0xA123
    index_register := 0x23
    pc := 0x202
    delay_timer := 4
    sound_timer := 0 }

/-- Byte at address `a` after a successful `load_program`. -/
def loadByte (s : Chip8) (buffer : List Nat) (a : Nat) : Option Nat :=
  match load_program s buffer with
  | .ok t => some (t.memory a)
  | .error _ => none

/-! Helper lemmas shared by the claim theorems. -/

/-- A successful fetch returns the big-endian combination of the bytes at
`pc` and `pc + 1`. -/
theorem fetch_opcode_ok (s : Chip8) (op : Nat) (h : fetch_opcode s = Except.ok op) :
    op = ((s.memory s.pc) <<< 8) ||| (s.memory ((s.pc + 1) % 65536)) := by
  unfold fetch_opcode readMem at h
  split_ifs at h <;> injection h with h1 <;> exact h1.symm

/-- No arm of the decode/execute dispatch modifies the latched opcode or
either timer. -/
theorem execute_preserves (t s1 : Chip8) (h : execute t = Except.ok s1) :
    s1.opcode = t.opcode ∧ s1.delay_timer = t.delay_timer ∧
      s1.sound_timer = t.sound_timer := by
  unfold execute at h
  split_ifs at h <;> injection h with h1 <;> subst h1 <;>
    simp [carry_flag, apply_ite]

/-- Behaviour of the timer-update tail: opcode untouched, both timers
decremented exactly when nonzero, BEEP printed exactly when the sound timer
goes from 1 to 0. -/
theorem update_timers_spec (t : Chip8) :
    (update_timers t).1.opcode = t.opcode ∧
    (update_timers t).1.delay_timer =
      (if 0 < t.delay_timer then t.delay_timer - 1 else t.delay_timer) ∧
    (update_timers t).1.sound_timer =
      (if 0 < t.sound_timer then t.sound_timer - 1 else t.sound_timer) ∧
    ((update_timers t).2 = true ↔ t.sound_timer = 1) := by
  unfold update_timers
  split_ifs <;> simp_all

/-- The `load_program` write loop hits the Rust bounds-check panic whenever
the buffer extends past the end of memory. -/
theorem write_program_overflow (buffer : List Nat) :
    ∀ (mem : Nat → Nat) (addr : Nat), buffer ≠ [] →
      MEMORY_MAX < addr + buffer.length →
      write_program mem addr buffer = Except.error EmuError.indexOutOfBounds := by
  induction buffer with
  | nil => exact fun _ _ hne _ => absurd rfl hne
  | cons b rest ih =>
    intro mem addr _ hover
    unfold write_program
    split_ifs with hlt
    · refine ih (upd mem addr b) (addr + 1) (fun hnil => ?_) ?_
      · rw [hnil] at hover
        simp only [List.length_cons, List.length_nil] at hover
        omega
      · simp only [List.length_cons] at hover
        omega
    · rfl

/-! Claim theorems. -/

/-- C1: the claim says executing instruction 8xy4 adds registers[y] into
registers[x] with carry in register 0xF and advances `pc` by 2.  On the
code, the 8XY4 arm is unreachable — the match scrutinee `opcode & 0xF000`
can never equal the arm's pattern `0x0004` — so the machine hits the
"Unknown opcode" panic instead: with V1 = 7, V2 = 8 and instruction word
0x8124 the cycle aborts. -/
theorem add_8xy4_unreachable_panics :
    cycleErr st8xy4 = some (EmuError.unknownOpcode 0x8124) := by decide

/-- C2: the claim says decoding never fails and maps unrecognized words to
an explicit "unknown" variant.  On the code, an unrecognized instruction
word (here 0xFFFF) falls through to `println!` + `panic!`, aborting the
process. -/
theorem decode_panics_on_unrecognized :
    cycleErr stFFFF = some (EmuError.unknownOpcode 0xFFFF) := by decide

/-- C3: the claim says Annn sets the (16-bit) index register to exactly nnn.
On the code, `index_register` is a `u8` field and the ANNN arm truncates the
operand with `as u8`: executing 0xA123 leaves index_register = 0x23, not
0x123 (the `pc` does advance by 2). -/
theorem annn_truncates_address :
    cycleIndex stAnnn = some 0x23 ∧ cyclePc stAnnn = some 0x202 ∧
      (0x23 : Nat) ≠ 0x123 := by decide

/-- C4: the claim says a call 2nnn pushes `pc + 2` and the following 00EE
restores `pc` to the instruction after the call.  On the code, the call
pushes the call site `pc` itself (0x200, not 0x202), and 00EE is an
`unimplemented!()` stub, so the second cycle panics and `pc` is never
restored. -/
theorem call_then_return_broken :
    cycleStack stCallRet 0 = some 0x200 ∧ cycleSp stCallRet = some 1 ∧
      cyclePc stCallRet = some 0x206 ∧
      twoCyclesErr stCallRet = some EmuError.unimplemented := by decide

/-- C5: the claim says a 17th nested call or a return on an empty stack is
fatal with a diagnostic identifying the instruction word and the program
counter.  On the code, the 17th call dies in the slice bounds-check panic
and the empty-stack return dies in the `unimplemented!()` stub — both fatal,
but neither diagnostic carries the instruction word or the `pc`. -/
theorem stack_violation_panics_without_diagnostic :
    cycleErr stFullStack = some EmuError.indexOutOfBounds ∧
      cycleErr stEmptyRet = some EmuError.unimplemented := by decide

/-- C6: the claim says Fx33 stores the three decimal digits of registers[x]
at memory[I..I+2].  On the code, the 0xFX33 arm is unreachable — the match
scrutinee `opcode & 0xF000` can never equal the arm's pattern `0x0033` — so
executing 0xF233 with V2 = 234 hits the "Unknown opcode" panic instead of
writing [2,3,4]. -/
theorem bcd_fx33_unreachable_panics :
    cycleErr stFx33 = some (EmuError.unknownOpcode 0xF233) := by decide

/-- C7: every successfully completed cycle latches the 2-byte big-endian
instruction word fetched at `pc` (high byte at `pc`, low byte at `pc+1`),
decrements each timer exactly when it was nonzero, and reports a tone
request exactly in the cycle where the sound timer goes from 1 to 0. -/
theorem cycle_fetch_and_timer_behavior (s s' : Chip8) (beep : Bool)
    (h : emulate_cycle s = Except.ok (s', beep)) :
    s'.opcode = ((s.memory s.pc) <<< 8) ||| (s.memory ((s.pc + 1) % 65536)) ∧
    s'.delay_timer =
      (if 0 < s.delay_timer then s.delay_timer - 1 else s.delay_timer) ∧
    s'.sound_timer =
      (if 0 < s.sound_timer then s.sound_timer - 1 else s.sound_timer) ∧
    (beep = true ↔ s.sound_timer = 1) := by
  unfold emulate_cycle at h
  split at h
  case h_1 e hf => cases h
  case h_2 op hf =>
    split at h
    case h_1 e hx => cases h
    case h_2 s1 hx =>
      injection h with h1
      obtain ⟨hxo, hxd, hxs⟩ := execute_preserves _ _ hx
      have hop := fetch_opcode_ok s op hf
      obtain ⟨huo, hud, hus, hub⟩ := update_timers_spec s1
      rw [h1] at huo hud hus hub
      simp only at hxo hxd hxs
      refine ⟨?_, ?_, ?_, ?_⟩
      · rw [huo, hxo, hop]
      · rw [hud, hxd]
      · rw [hus, hxs]
      · rw [hub, hxs]

/-- Witness for C7 at the concrete machine `stTimers` (delay timer 5, sound
timer 1, instruction 0xA123). -/
theorem cycle_fetch_and_timer_behavior_witness :
    stTimersAfter.opcode =
      ((stTimers.memory stTimers.pc) <<< 8) |||
        (stTimers.memory ((stTimers.pc + 1) % 65536)) ∧
    stTimersAfter.delay_timer =
      (if 0 < stTimers.delay_timer then stTimers.delay_timer - 1
        else stTimers.delay_timer) ∧
    stTimersAfter.sound_timer =
      (if 0 < stTimers.sound_timer then stTimers.sound_timer - 1
        else stTimers.sound_timer) ∧
    (true = true ↔ stTimers.sound_timer = 1) :=
  cycle_fetch_and_timer_behavior stTimers stTimersAfter true rfl

/-- C8: the claim says every state reachable from a properly initialized
machine keeps `pc` and `index_register` in [0x000, 0xFFF] and `sp` in
[0, 16].  On the code, from a properly initialized machine whose ROM calls
0x2FFE and has 0xA123 in the last two bytes of memory, two successful cycles
leave `pc` = 0x1000, outside the claimed range. -/
theorem pc_escapes_address_space :
    twoCyclesPc stPcOverrun = some 0x1000 ∧ ¬(0x1000 ≤ 0xFFF) := by decide

/-- C9: the claim says ROM bytes are copied verbatim to 0x200 and an
oversized ROM makes boot fail with an error reported to the host.  On the
code, the copy itself is verbatim, but `boot` dies in the `unimplemented!()`
inside `initialize` for every ROM, and an oversized ROM (3585 bytes, one
more than fits) dies in the slice bounds-check panic inside the copy loop
instead of returning an error. -/
theorem boot_panics_and_oversized_rom_panics :
    boot Chip8.new [0x00] = Except.error EmuError.unimplemented ∧
    loadByte Chip8.new [0xAB, 0xCD] 0x200 = some 0xAB ∧
    loadByte Chip8.new [0xAB, 0xCD] 0x201 = some 0xCD ∧
    load_program Chip8.new (List.replicate 3585 0) =
      Except.error EmuError.indexOutOfBounds := by
  refine ⟨rfl, by decide, by decide, ?_⟩
  have hw : write_program Chip8.new.memory PROGRAM_START_ADDRESS
      (List.replicate 3585 0) = Except.error EmuError.indexOutOfBounds := by
    refine write_program_overflow _ _ _ ?_ ?_
    · intro hnil
      have hlen := congrArg List.length hnil
      rw [List.length_replicate] at hlen
      exact absurd hlen (by decide)
    · rw [List.length_replicate]
      decide
  unfold load_program
  rw [hw]
  rfl

/-- C10: one execution step is deterministic — two machines equal in every
field produce equal `emulate_cycle` results, including the fatal/non-fatal
outcome. -/
theorem emulate_cycle_deterministic (s t : Chip8)
    (h1 : s.opcode = t.opcode) (h2 : s.memory = t.memory) (h3 : s.V = t.V)
    (h4 : s.index_register = t.index_register) (h5 : s.pc = t.pc)
    (h6 : s.gfx = t.gfx) (h7 : s.draw_flag = t.draw_flag)
    (h8 : s.delay_timer = t.delay_timer) (h9 : s.sound_timer = t.sound_timer)
    (h10 : s.stack = t.stack) (h11 : s.sp = t.sp)
    (h12 : s.keypad = t.keypad) :
    emulate_cycle s = emulate_cycle t := by
  have hst : s = t := by cases s; cases t; simp_all
  rw [hst]

/-- Witness for C10 at the freshly constructed machine. -/
theorem emulate_cycle_deterministic_witness :
    emulate_cycle Chip8.new = emulate_cycle Chip8.new :=
  emulate_cycle_deterministic Chip8.new Chip8.new rfl rfl rfl rfl rfl rfl
    rfl rfl rfl rfl rfl rfl

end RustyChip8
